import Mathlib

/-
  Verification of the catalog-sync engine in `src/js/offers-loader.js`
  (the iteration with TTL caching and background refresh, the one the
  specification describes: `readCache`, `writeCache`,
  `fetchWithConditionalHeaders`, `backgroundRefresh`, `loadOffers`).

  Shallow embedding: JavaScript values relevant to the loader are modelled
  by the inductive `JsValue`; the durable store cell, the settled result of
  the conditional fetch and the wall clock are inputs of the model; a run
  of the orchestrator is the ordered list of its observable actions
  (assignments of `window.CoolVoceOffers`, fetch initiations, cache writes,
  and the `offers:loaded` / `offers:updated` dispatches).
-/

namespace CoolVoce

/-- JavaScript values as far as the loader manipulates them.  `jundef`
models the `undefined` obtained from a missing property; parsed JSON
never contains it. -/
inductive JsValue where
  | jundef
  | jnull
  | jbool (b : Bool)
  | jnum (n : Int)
  | jstr (s : String)
  | jarr (elems : List JsValue)
  | jobj (fields : List (String × JsValue))

/-- JavaScript truthiness, as used by the loader's `if (x)` and `x || y`
guards.  (`NaN` is not modelled; integers stand for the numeric values
that occur here.) -/
def truthy : JsValue → Bool
  | .jundef => false
  | .jnull => false
  | .jbool b => b
  | .jnum n => n != 0
  | .jstr s => s != ""
  | .jarr _ => true
  | .jobj _ => true

/-- Property lookup on a field list (first match, as JavaScript objects
resulting from `JSON.parse` have unique keys). -/
def getPropFields : List (String × JsValue) → String → JsValue
  | [], _ => .jundef
  | (k', v) :: rest, k => if k' == k then v else getPropFields rest k

/-- JavaScript property access `v.k`.  Every access in the source is
guarded by a truthiness check on `v`, so the `jnull`/`jundef` cases
(which would throw in JavaScript) are never evaluated on the traced
paths; the model returns `jundef` there. -/
def getProp (v : JsValue) (k : String) : JsValue :=
  match v with
  | .jobj fields => getPropFields fields k
  | _ => .jundef

mutual
/-- `JSON.stringify`, the canonical serialization the loader compares
payloads with (`offers-loader.js` lines 124-127).  String escaping is not
modelled (no payload reaching a comparison contains characters needing
escapes in the claims' scope), and `jundef` (which `JSON.stringify` maps
to `undefined`) never reaches a serialization on the guarded paths. -/
def stringify : JsValue → String
  | .jundef => "undefined"
  | .jnull => "null"
  | .jbool true => "true"
  | .jbool false => "false"
  | .jnum n => toString n
  | .jstr s => "\"" ++ s ++ "\""
  | .jarr es => "[" ++ stringifyElems es ++ "]"
  | .jobj fs => "\x7b" ++ stringifyFields fs ++ "\x7d"

def stringifyElems : List JsValue → String
  | [] => ""
  | [e] => stringify e
  | e :: e' :: es => stringify e ++ "," ++ stringifyElems (e' :: es)

def stringifyFields : List (String × JsValue) → String
  | [] => ""
  | [(k, v)] => "\"" ++ k ++ "\":" ++ stringify v
  | (k, v) :: f :: fs => "\"" ++ k ++ "\":" ++ stringify v ++ "," ++ stringifyFields (f :: fs)
end

/-- The empty mapping `\x7b\x7d` the loader falls back to. -/
def emptyObj : JsValue := .jobj []

/-- `TTL_MS = 24 * 60 * 60 * 1000` (offers-loader.js line 64). -/
def TTL_MS : Int := 24 * 60 * 60 * 1000

/-- `FETCH_TIMEOUT = 10000` ms (offers-loader.js line 63); a timeout
rejection is one source of the `FetchResult.err` case below. -/
def FETCH_TIMEOUT : Int := 10000

/-- One cell of `localStorage` under `CACHE_KEY`: absent, raw text that
`JSON.parse` rejects (or the empty string, which the `!raw` guard also
sends to `null`), or text that parses to a JavaScript value.
`localStorage.getItem` throwing (disabled storage) is covered by
`malformed` as well: the `catch` in `readCache` treats both alike. -/
inductive StoredCell where
  | malformed
  | wellFormed (v : JsValue)

/-- The settled result of `res.json()`: parsed JSON or a parse error
(which the source lets propagate into its `catch`). -/
inductive BodyResult where
  | parsed (v : JsValue)
  | parseError (msg : String)

/-- The settled result of `fetchWithConditionalHeaders` (the timeout race
around `fetch`): a rejection (`err`, covering network failure and the
10-second timeout alike) or a response with its status, body and the
`ETag` / `Last-Modified` header values (`none` when the header is
absent). -/
inductive FetchResult where
  | err (msg : String)
  | ok (status : Nat) (body : BodyResult) (etagH : Option String) (lastModifiedH : Option String)

/-- The record `writeCache` persists (offers-loader.js lines 84-96).
Validators are kept as JavaScript values because the 304 paths pass the
prior record's fields through unchanged. -/
structure CacheRecord where
  etag : JsValue
  lastModified : JsValue
  timestamp : Int
  data : JsValue

/-- `readCache` (offers-loader.js lines 73-82): absent or unparseable
data yields `null` (the `catch` makes the function total); parseable
data is returned as-is. -/
def readCache : Option StoredCell → JsValue
  | none => .jnull
  | some .malformed => .jnull
  | some (.wellFormed v) => v

/-- `writeCache` (offers-loader.js lines 84-96): normalizes `etag`,
`lastModified` with `|| null` and `data` with `|| \x7b\x7d`.  The source's
`timestamp: timestamp || Date.now()` cannot change the value because
every call site passes `Date.now()` itself, so the field is kept as
passed. -/
def writeCache (etag lastModified : JsValue) (data : JsValue) (timestamp : Int) : CacheRecord :=
  { etag := if truthy etag then etag else .jnull
    lastModified := if truthy lastModified then lastModified else .jnull
    timestamp := timestamp
    data := if truthy data then data else emptyObj }

/-- `res.headers.get(h) || null` (offers-loader.js lines 121-122 and
185-186): an absent or empty header becomes `null`. -/
def headerOrNull : Option String → JsValue
  | some s => if s == "" then .jnull else .jstr s
  | none => .jnull

/-- The observable actions of one orchestration run, in program order:
assignment of `window.CoolVoceOffers`, initiation of the conditional
fetch, a `localStorage` cache write, the dispatch of `offers:loaded`
("catalog ready") and of `offers:updated` ("catalog changed", with its
detail fields). -/
inductive Act where
  | setOffers (v : JsValue)
  | fetchStart
  | write (r : CacheRecord)
  | loaded
  | updated (reason : String) (etag lastModified : JsValue) (timestamp : Int)

def isLoadedAct : Act → Bool
  | .loaded => true
  | _ => false

def isUpdatedAct : Act → Bool
  | .updated _ _ _ _ => true
  | _ => false

def isFetchStartAct : Act → Bool
  | .fetchStart => true
  | _ => false

def isWriteAct : Act → Bool
  | .write _ => true
  | _ => false

/-- The records written during a run, in order. -/
def writesOf (acts : List Act) : List CacheRecord :=
  acts.filterMap fun a =>
    match a with
    | .write r => some r
    | _ => none

/-- `backgroundRefresh` (offers-loader.js lines 116-150), as the list of
actions it performs once its conditional fetch settles to `fr`.  `now`
is the value of the `Date.now()` calls inside it (lines 126, 130, 138).
Status 200: always writes the new record (line 126), then compares
`JSON.stringify` of the cached data (or `null` when absent) with the new
body and, only when they differ, reassigns the served value and
dispatches `offers:updated` (lines 127-130).  Status 304 with cached
data: rewrites the record with the prior fields and a fresh timestamp
(line 138).  Any other status, a rejection, or a body parse error
performs nothing. -/
def backgroundRefresh (cached : JsValue) (fr : FetchResult) (now : Int) : List Act :=
  Act.fetchStart ::
    match fr with
    | .err _ => []
    | .ok status body etagH lmH =>
      if status == 200 then
        match body with
        | .parseError _ => []
        | .parsed json =>
          let etag := headerOrNull etagH
          let lastModified := headerOrNull lmH
          let cachedStr : Option String :=
            if truthy cached && truthy (getProp cached "data") then
              some (stringify (getProp cached "data"))
            else none
          let newStr : Option String := some (stringify json)
          if cachedStr ≠ newStr then
            [Act.write (writeCache etag lastModified json now),
             Act.setOffers json,
             Act.updated "fetched" etag lastModified now]
          else
            [Act.write (writeCache etag lastModified json now)]
      else if status == 304 then
        if truthy cached && truthy (getProp cached "data") then
          [Act.write (writeCache (getProp cached "etag") (getProp cached "lastModified")
              (getProp cached "data") now)]
        else []
      else []

/-- The body of the `try`/`catch` of the blocking-fetch path
(offers-loader.js lines 181-218), without the `finally` dispatch.
200: write the new record, then serve the body (lines 183-189) — note no
`offers:updated` is dispatched here.  304 with cached data: serve the
cached data, then rewrite the record with a fresh timestamp (lines
190-196); 304 without: serve the empty mapping (lines 197-199).  Any
other status (lines 201-208), a rejection or a body parse error (`catch`,
lines 210-218): serve the cached data when present, else the empty
mapping. -/
def blockingActs (cached : JsValue) (fr : FetchResult) (now : Int) : List Act :=
  match fr with
  | .err _ =>
    [Act.setOffers (if truthy cached && truthy (getProp cached "data") then
        getProp cached "data" else emptyObj)]
  | .ok status body etagH lmH =>
    if status == 200 then
      match body with
      | .parseError _ =>
        [Act.setOffers (if truthy cached && truthy (getProp cached "data") then
            getProp cached "data" else emptyObj)]
      | .parsed json =>
        [Act.write (writeCache (headerOrNull etagH) (headerOrNull lmH) json now),
         Act.setOffers json]
    else if status == 304 then
      if truthy cached && truthy (getProp cached "data") then
        [Act.setOffers (getProp cached "data"),
         Act.write (writeCache (getProp cached "etag") (getProp cached "lastModified")
            (getProp cached "data") now)]
      else [Act.setOffers emptyObj]
    else
      [Act.setOffers (if truthy cached && truthy (getProp cached "data") then
          getProp cached "data" else emptyObj)]

/-- `window.CoolVoceOffers = window.CoolVoceOffers || \x7b\x7d`
(offers-loader.js line 153): the value assigned at entry, given the
possibly-undefined prior value. -/
def initOffersValue : Option JsValue → JsValue
  | some v => if truthy v then v else emptyObj
  | none => emptyObj

/-- The TTL guard `cached && cached.timestamp && (Date.now() -
cached.timestamp) < TTL_MS` (offers-loader.js line 171).  A stored
timestamp that is not a number compares as `NaN` in JavaScript, making
the guard false; the wildcard case mirrors that. -/
def freshCheck (cached : JsValue) (now : Int) : Bool :=
  truthy cached && truthy (getProp cached "timestamp") &&
    (match getProp cached "timestamp" with
     | .jnum t => decide (now - t < TTL_MS)
     | _ => false)

/-- The inputs of one orchestration run: the prior value of
`window.CoolVoceOffers` (`none` = undefined), the stored cache cell,
whether the page runs from `file://` (no networked transport), the
settled result of the (at most one) conditional fetch of the run, and
the wall clock at the blocking phase (`now`) and at the background
phase (`nowBg`). -/
structure Env where
  initOffers : Option JsValue
  store : Option StoredCell
  fileProto : Bool
  fetchRes : FetchResult
  now : Int
  nowBg : Int

/-- `loadOffers` (offers-loader.js lines 152-222) followed — on the
fresh-cache path — by the completion of the `backgroundRefresh` it
started: the full ordered action trace of one orchestration run.
Offline path: lines 157-167.  Fresh-cache path: lines 171-178 (the
`offers:loaded` dispatch precedes the `backgroundRefresh` call).
Blocking path: lines 181-221, with the `finally` dispatching
`offers:loaded` last. -/
def loadOffers (env : Env) : List Act :=
  let cached := readCache env.store
  Act.setOffers (initOffersValue env.initOffers) ::
    (if env.fileProto then
      [Act.setOffers (if truthy cached && truthy (getProp cached "data") then
          getProp cached "data" else emptyObj),
       Act.loaded]
     else if freshCheck cached env.now then
      Act.setOffers (if truthy (getProp cached "data") then getProp cached "data" else emptyObj) ::
        Act.loaded :: backgroundRefresh cached env.fetchRes env.nowBg
     else
      Act.fetchStart :: (blockingActs cached env.fetchRes env.now ++ [Act.loaded]))

/-- The value of `window.CoolVoceOffers` after a list of actions, given
its value before them (`none` = undefined). -/
def offersAfter (init : Option JsValue) : List Act → Option JsValue
  | [] => init
  | Act.setOffers v :: rest => offersAfter (some v) rest
  | _ :: rest => offersAfter init rest

/-- A validator field as the loader itself persists it: `null` or a
non-empty string (header values pass through `|| null` before being
stored). -/
def validatorOk : JsValue → Bool
  | .jnull => true
  | .jstr s => s != ""
  | _ => false

/-- The JavaScript value a persisted `CacheRecord` parses back to (field
order as `writeCache` serializes it). -/
def recordJs (e l : JsValue) (t : Int) (d : JsValue) : JsValue :=
  .jobj [("etag", e), ("lastModified", l), ("timestamp", .jnum t), ("data", d)]

/-- The `Failed` outcomes of the specification's ConditionalFetcher, as
the source classifies them: a rejection (network error or timeout), a
status other than 200 and 304, or a 200 whose body fails to parse. -/
def failedOutcome : FetchResult → Bool
  | .err _ => true
  | .ok status body _ _ =>
    if status == 200 then
      match body with
      | .parseError _ => true
      | .parsed _ => false
    else !(status == 304)

/-- The parsed body carried by a fetch result, when any. -/
def bodyOf : FetchResult → Option JsValue
  | .ok _ (.parsed j) _ _ => some j
  | _ => none

/-- Concrete run: fresh record (age 50 ms), networked, fetch rejects. -/
def c2EnvW : Env :=
  { initOffers := none
    store := some (.wellFormed (recordJs (.jstr "v1") .jnull 50 (.jobj [("A", .jstr "x")])))
    fileProto := false
    fetchRes := .err "offline"
    now := 100
    nowBg := 200 }

/-- Concrete run: stale record, networked, server answers 304. -/
def c5EnvW : Env :=
  { initOffers := none
    store := some (.wellFormed (recordJs (.jstr "w1") .jnull 1 (.jobj [("K", .jnum 7)])))
    fileProto := false
    fetchRes := .ok 304 (.parseError "no body") (some "w1") none
    now := 100000000
    nowBg := 300 }

/-- Concrete run: `file://` context with a cached record. -/
def c7EnvW : Env :=
  { initOffers := some (.jobj [])
    store := some (.wellFormed (recordJs .jnull .jnull 5 (.jobj [("B", .jstr "y")])))
    fileProto := true
    fetchRes := .err "blocked"
    now := 10
    nowBg := 20 }

/-- Concrete run: no record, networked, fetch times out. -/
def c8EnvW : Env :=
  { initOffers := none
    store := none
    fileProto := false
    fetchRes := .err "timeout"
    now := 10
    nowBg := 20 }

/-- Concrete run: `file://`, empty store, undefined prior value. -/
def c10EnvW : Env :=
  { initOffers := none
    store := none
    fileProto := true
    fetchRes := .err "x"
    now := 1
    nowBg := 2 }

/-- Concrete run: stale record, networked, 200 with a new, different
payload. -/
def c1EnvX : Env :=
  { initOffers := none
    store := some (.wellFormed (recordJs (.jstr "v0") .jnull 3 (.jobj [("A", .jstr "x")])))
    fileProto := false
    fetchRes := .ok 200 (.parsed (.jobj [("A", .jnum 1)])) (some "v1") none
    now := 100000000
    nowBg := 100000500 }

/-- Concrete run: stale record, networked, 200 with a different payload
and both validator headers. -/
def c1EnvW : Env :=
  { initOffers := none
    store := some (.wellFormed (recordJs (.jstr "v0") .jnull 3 (.jobj [("A", .jstr "x")])))
    fileProto := false
    fetchRes := .ok 200 (.parsed (.jobj [("B", .jnum 2)])) (some "v1") (some "Mon")
    now := 100000000
    nowBg := 100000500 }
theorem getProp_recordJs_etag (e l : JsValue) (t : Int) (d : JsValue) :
    getProp (recordJs e l t d) "etag" = e := by
  simp [recordJs, getProp, getPropFields]

theorem getProp_recordJs_lastModified (e l : JsValue) (t : Int) (d : JsValue) :
    getProp (recordJs e l t d) "lastModified" = l := by
  simp [recordJs, getProp, getPropFields]

theorem getProp_recordJs_timestamp (e l : JsValue) (t : Int) (d : JsValue) :
    getProp (recordJs e l t d) "timestamp" = .jnum t := by
  simp [recordJs, getProp, getPropFields]

theorem getProp_recordJs_data (e l : JsValue) (t : Int) (d : JsValue) :
    getProp (recordJs e l t d) "data" = d := by
  simp [recordJs, getProp, getPropFields]

theorem truthy_recordJs (e l : JsValue) (t : Int) (d : JsValue) :
    truthy (recordJs e l t d) = true := rfl

theorem writeCache_of_validatorOk (e l d : JsValue) (t : Int)
    (he : validatorOk e = true) (hl : validatorOk l = true) (hd : truthy d = true) :
    writeCache e l d t = ⟨e, l, t, d⟩ := by
  cases e <;> cases l <;> simp_all [validatorOk, writeCache, truthy]

theorem validatorOk_headerOrNull (h : Option String) :
    validatorOk (headerOrNull h) = true := by
  cases h with
  | none => rfl
  | some s =>
    by_cases hs : s == ""
    · simp [headerOrNull, hs, validatorOk]
    · simp [headerOrNull, hs, validatorOk]
      simpa using hs

theorem writeCache_headers (h1 h2 : Option String) (d : JsValue) (t : Int)
    (hd : truthy d = true) :
    writeCache (headerOrNull h1) (headerOrNull h2) d t =
      ⟨headerOrNull h1, headerOrNull h2, t, d⟩ :=
  writeCache_of_validatorOk _ _ _ _ (validatorOk_headerOrNull h1) (validatorOk_headerOrNull h2) hd

theorem freshCheck_recordJs (e l : JsValue) (t : Int) (d : JsValue) (now : Int) :
    freshCheck (recordJs e l t d) now = (t != 0 && decide (now - t < TTL_MS)) := by
  simp [freshCheck, recordJs, getProp, getPropFields, truthy]

theorem freshCheck_jnull (now : Int) : freshCheck .jnull now = false := rfl

theorem backgroundRefresh_countP_loaded (c : JsValue) (fr : FetchResult) (n : Int) :
    (backgroundRefresh c fr n).countP isLoadedAct = 0 := by
  unfold backgroundRefresh
  cases fr with
  | err m => simp [isLoadedAct]
  | ok status body etagH lmH =>
    dsimp only
    split
    · split
      · simp [isLoadedAct]
      · split <;> (try split) <;> simp [isLoadedAct, List.countP_cons]
    · split
      · split <;> (try split) <;> simp [isLoadedAct, List.countP_cons]
      · simp [isLoadedAct]

theorem backgroundRefresh_countP_updated_le (c : JsValue) (fr : FetchResult) (n : Int) :
    (backgroundRefresh c fr n).countP isUpdatedAct ≤ 1 := by
  unfold backgroundRefresh
  cases fr with
  | err m => simp [isUpdatedAct]
  | ok status body etagH lmH =>
    dsimp only
    split
    · split
      · simp [isUpdatedAct]
      · split <;> (try split) <;> simp [isUpdatedAct, List.countP_cons]
    · split
      · split <;> (try split) <;> simp [isUpdatedAct, List.countP_cons]
      · simp [isUpdatedAct]

theorem blockingActs_countP_loaded (c : JsValue) (fr : FetchResult) (n : Int) :
    (blockingActs c fr n).countP isLoadedAct = 0 := by
  unfold blockingActs
  cases fr with
  | err m => simp [isLoadedAct]
  | ok status body etagH lmH =>
    dsimp only
    split
    · split <;> simp [isLoadedAct, List.countP_cons]
    · split
      · split <;> simp [isLoadedAct, List.countP_cons]
      · simp [isLoadedAct, List.countP_cons]

theorem blockingActs_countP_updated (c : JsValue) (fr : FetchResult) (n : Int) :
    (blockingActs c fr n).countP isUpdatedAct = 0 := by
  unfold blockingActs
  cases fr with
  | err m => simp [isUpdatedAct]
  | ok status body etagH lmH =>
    dsimp only
    split
    · split <;> simp [isUpdatedAct, List.countP_cons]
    · split
      · split <;> simp [isUpdatedAct, List.countP_cons]
      · simp [isUpdatedAct, List.countP_cons]

/-- Structural decomposition of every run: the trace is some prefix
without `loaded`/`updated` actions (starting with the entry assignment),
then the single `offers:loaded` dispatch, then a suffix without further
`loaded` and with at most one `offers:updated`. -/
theorem loadOffers_shape (env : Env) :
    ∃ l1 l2, loadOffers env = l1 ++ Act.loaded :: l2 ∧
      l1.countP isLoadedAct = 0 ∧ l1.countP isUpdatedAct = 0 ∧
      l2.countP isLoadedAct = 0 ∧ l2.countP isUpdatedAct ≤ 1 ∧
      l1.head? = some (Act.setOffers (initOffersValue env.initOffers)) := by
  unfold loadOffers
  by_cases hf : env.fileProto
  · refine ⟨[Act.setOffers (initOffersValue env.initOffers),
      Act.setOffers (if truthy (readCache env.store) && truthy (getProp (readCache env.store) "data")
        then getProp (readCache env.store) "data" else emptyObj)], [], ?_, ?_, ?_, ?_, ?_, ?_⟩ <;>
      simp [hf, isLoadedAct, isUpdatedAct, List.countP_cons]
  · by_cases hfr : freshCheck (readCache env.store) env.now
    · refine ⟨[Act.setOffers (initOffersValue env.initOffers),
        Act.setOffers (if truthy (getProp (readCache env.store) "data")
          then getProp (readCache env.store) "data" else emptyObj)],
        backgroundRefresh (readCache env.store) env.fetchRes env.nowBg, ?_, ?_, ?_, ?_, ?_, ?_⟩ <;>
        simp [hf, hfr, isLoadedAct, isUpdatedAct, List.countP_cons,
          backgroundRefresh_countP_loaded, backgroundRefresh_countP_updated_le]
    · refine ⟨Act.setOffers (initOffersValue env.initOffers) ::
        Act.fetchStart :: blockingActs (readCache env.store) env.fetchRes env.now,
        [], ?_, ?_, ?_, ?_, ?_, ?_⟩ <;>
        simp [hf, hfr, isLoadedAct, isUpdatedAct, List.countP_cons,
          blockingActs_countP_loaded, blockingActs_countP_updated]

theorem offersAfter_isSome (l : List Act) (i : Option JsValue) (h : i.isSome = true) :
    (offersAfter i l).isSome = true := by
  induction l generalizing i with
  | nil => exact h
  | cons a rest ih =>
    cases a with
    | setOffers v => exact ih (some v) rfl
    | fetchStart => exact ih i h
    | write r => exact ih i h
    | loaded => exact ih i h
    | updated r e lm t => exact ih i h

/-- Every `Failed` outcome (rejection, bad status, or parse error on a
200 body) makes `backgroundRefresh` perform nothing beyond starting the
fetch. -/
theorem backgroundRefresh_failed (c : JsValue) (fr : FetchResult) (n : Int)
    (hfail : failedOutcome fr = true) :
    backgroundRefresh c fr n = [Act.fetchStart] := by
  unfold backgroundRefresh
  cases fr with
  | err m => rfl
  | ok status body etagH lmH =>
    unfold failedOutcome at hfail
    dsimp only at hfail ⊢
    split
    · split
      · rfl
      · simp_all
    · next hs =>
      split
      · next h304 => simp [hs, h304] at hfail
      · rfl

/-- Every `Failed` outcome makes the blocking-fetch body fall back to
the cached data when present, else the empty mapping, with no write. -/
theorem blockingActs_failed (c : JsValue) (fr : FetchResult) (n : Int)
    (hfail : failedOutcome fr = true) :
    blockingActs c fr n =
      [Act.setOffers (if truthy c && truthy (getProp c "data") then
          getProp c "data" else emptyObj)] := by
  unfold blockingActs
  cases fr with
  | err m => rfl
  | ok status body etagH lmH =>
    unfold failedOutcome at hfail
    dsimp only at hfail ⊢
    split
    · split
      · rfl
      · simp_all
    · next hs =>
      split
      · next h304 => simp [hs, h304] at hfail
      · rfl

/-- C3: on every execution path — offline, fresh-cache, blocking fetch,
and every failure path (timeout, network error, bad status, parse
error) — the "catalog ready" signal (`offers:loaded`) is emitted exactly
once per orchestration run. -/
theorem ready_fires_exactly_once (env : Env) :
    (loadOffers env).countP isLoadedAct = 1 := by
  obtain ⟨l1, l2, heq, h1, _, h2, _, _⟩ := loadOffers_shape env
  rw [heq]
  simp [List.countP_append, List.countP_cons, isLoadedAct, h1, h2]

/-- C4: in every orchestration run, "catalog changed" (`offers:updated`)
is emitted at most once, and every emission lies strictly after the
"catalog ready" (`offers:loaded`) emission of the same run: the trace
splits as a prefix free of both signals, then `loaded`, then the
remainder holding any `updated`. -/
theorem changed_at_most_once_after_ready (env : Env) :
    (loadOffers env).countP isUpdatedAct ≤ 1 ∧
    ∃ l1 l2, loadOffers env = l1 ++ Act.loaded :: l2 ∧
      l1.countP isUpdatedAct = 0 ∧ l1.countP isLoadedAct = 0 := by
  obtain ⟨l1, l2, heq, hl1, hu1, hl2, hu2, _⟩ := loadOffers_shape env
  refine ⟨?_, l1, l2, heq, hu1, hl1⟩
  rw [heq]
  simp [List.countP_append, List.countP_cons, isUpdatedAct, hu1]
  omega

/-- C2: with a networked transport and a persisted record that is fresh
(`now - fetchedAt < TTL`, TTL = 24h), the run serves the record's
payload and emits "catalog ready" with no fetch initiated before that
signal, and only then starts the background revalidation on the same
record. -/
theorem fresh_cache_serves_then_revalidates (env : Env) (e l : JsValue) (t : Int)
    (fs : List (String × JsValue))
    (hfile : env.fileProto = false)
    (hstore : readCache env.store = recordJs e l t (.jobj fs))
    (ht : 0 < t)
    (hfresh : env.now - t < TTL_MS) :
    loadOffers env =
      Act.setOffers (initOffersValue env.initOffers) ::
        Act.setOffers (.jobj fs) :: Act.loaded ::
          backgroundRefresh (recordJs e l t (.jobj fs)) env.fetchRes env.nowBg ∧
    ((loadOffers env).take 3).countP isFetchStartAct = 0 ∧
    offersAfter env.initOffers ((loadOffers env).take 3) = some (.jobj fs) := by
  have hfc : freshCheck (recordJs e l t (.jobj fs)) env.now = true := by
    rw [freshCheck_recordJs]
    simp only [Bool.and_eq_true, bne_iff_ne, ne_eq, decide_eq_true_eq]
    exact ⟨by omega, hfresh⟩
  have htr : loadOffers env =
      Act.setOffers (initOffersValue env.initOffers) ::
        Act.setOffers (.jobj fs) :: Act.loaded ::
          backgroundRefresh (recordJs e l t (.jobj fs)) env.fetchRes env.nowBg := by
    unfold loadOffers
    simp [hstore, hfile, hfc, getProp_recordJs_data, truthy]
  refine ⟨htr, ?_, ?_⟩ <;>
    rw [htr] <;>
    simp [offersAfter, isFetchStartAct, List.countP_cons]

theorem backgroundRefresh_304 (c : JsValue) (body : BodyResult) (etagH lmH : Option String)
    (n : Int) (htr : truthy c = true) (htd : truthy (getProp c "data") = true) :
    backgroundRefresh c (.ok 304 body etagH lmH) n =
      [Act.fetchStart,
       Act.write (writeCache (getProp c "etag") (getProp c "lastModified")
          (getProp c "data") n)] := by
  unfold backgroundRefresh
  simp [htr, htd]

theorem blockingActs_304 (c : JsValue) (body : BodyResult) (etagH lmH : Option String)
    (n : Int) (htr : truthy c = true) (htd : truthy (getProp c "data") = true) :
    blockingActs c (.ok 304 body etagH lmH) n =
      [Act.setOffers (getProp c "data"),
       Act.write (writeCache (getProp c "etag") (getProp c "lastModified")
          (getProp c "data") n)] := by
  unfold blockingActs
  simp [htr, htd]

theorem writeCache_etag_of_validatorOk (e l d : JsValue) (t : Int)
    (he : validatorOk e = true) : (writeCache e l d t).etag = e := by
  cases e <;> simp_all [validatorOk, writeCache, truthy]

theorem writeCache_lastModified_of_validatorOk (e l d : JsValue) (t : Int)
    (hl : validatorOk l = true) : (writeCache e l d t).lastModified = l := by
  cases l <;> simp_all [validatorOk, writeCache, truthy]

/-- C5: a NotModified (304) response with a prior record rewrites the
record with `fetchedAt` = the clock of the handling phase while keeping
the prior validators and payload, and emits no "catalog changed" — on
the background path (fresh record) and the blocking path (stale record)
alike.  The `validatorOk` hypotheses state the record invariant of the
data model: persisted validators are null or a non-empty string, as
`writeCache`'s `|| null` normalization guarantees for every record the
loader itself writes. -/
theorem notModified_rewrites_freshness_only (env : Env) (e l : JsValue) (t : Int)
    (fs : List (String × JsValue)) (body : BodyResult) (etagH lmH : Option String)
    (hfile : env.fileProto = false)
    (hstore : readCache env.store = recordJs e l t (.jobj fs))
    (he : validatorOk e = true) (hl : validatorOk l = true)
    (hfr : env.fetchRes = .ok 304 body etagH lmH) :
    writesOf (loadOffers env) =
      [⟨e, l, if freshCheck (recordJs e l t (.jobj fs)) env.now then env.nowBg else env.now,
        .jobj fs⟩] ∧
    (loadOffers env).countP isUpdatedAct = 0 := by
  have htrJ : truthy (recordJs e l t (.jobj fs)) = true := rfl
  have htd : truthy (getProp (recordJs e l t (.jobj fs)) "data") = true := by
    rw [getProp_recordJs_data]; rfl
  have hwc : ∀ n : Int,
      writeCache (getProp (recordJs e l t (.jobj fs)) "etag")
        (getProp (recordJs e l t (.jobj fs)) "lastModified")
        (getProp (recordJs e l t (.jobj fs)) "data") n = ⟨e, l, n, .jobj fs⟩ := by
    intro n
    rw [getProp_recordJs_etag, getProp_recordJs_lastModified, getProp_recordJs_data]
    exact writeCache_of_validatorOk e l (.jobj fs) n he hl rfl
  by_cases hfc : freshCheck (recordJs e l t (.jobj fs)) env.now = true
  · have htrace : loadOffers env =
        [Act.setOffers (initOffersValue env.initOffers), Act.setOffers (.jobj fs),
         Act.loaded, Act.fetchStart, Act.write ⟨e, l, env.nowBg, .jobj fs⟩] := by
      unfold loadOffers
      simp [hstore, hfile, hfc, hfr, backgroundRefresh_304 _ body etagH lmH env.nowBg htrJ htd,
        hwc, getProp_recordJs_data, truthy]
      rw [getProp_recordJs_etag, getProp_recordJs_lastModified]
      exact writeCache_of_validatorOk e l (.jobj fs) env.nowBg he hl rfl
    rw [htrace, if_pos hfc]
    constructor
    · simp [writesOf]
    · simp [isUpdatedAct, List.countP_cons]
  · have htrace : loadOffers env =
        [Act.setOffers (initOffersValue env.initOffers), Act.fetchStart,
         Act.setOffers (.jobj fs), Act.write ⟨e, l, env.now, .jobj fs⟩, Act.loaded] := by
      unfold loadOffers
      simp [hstore, hfile, hfc, hfr, blockingActs_304 _ body etagH lmH env.now htrJ htd,
        hwc, getProp_recordJs_data, truthy]
      rw [getProp_recordJs_etag, getProp_recordJs_lastModified]
      exact writeCache_of_validatorOk e l (.jobj fs) env.now he hl rfl
    rw [htrace, if_neg hfc]
    constructor
    · simp [writesOf]
    · simp [isUpdatedAct, List.countP_cons]

/-- C6: a Fresh (200) outcome whose payload has the same canonical
serialization as the previously served payload — whatever its validator
tag — emits no "catalog changed", yet still rewrites the cache record
with the new validators and `fetchedAt` = the background clock. -/
theorem fresh_identical_content_no_changed (e l : JsValue) (t : Int)
    (fs : List (String × JsValue)) (json : JsValue) (etagH lmH : Option String)
    (nowBg : Int)
    (hsame : stringify (JsValue.jobj fs) = stringify json) :
    backgroundRefresh (recordJs e l t (.jobj fs)) (.ok 200 (.parsed json) etagH lmH) nowBg =
      [Act.fetchStart,
       Act.write (writeCache (headerOrNull etagH) (headerOrNull lmH) json nowBg)] ∧
    (writeCache (headerOrNull etagH) (headerOrNull lmH) json nowBg).etag = headerOrNull etagH ∧
    (writeCache (headerOrNull etagH) (headerOrNull lmH) json nowBg).lastModified =
      headerOrNull lmH ∧
    (writeCache (headerOrNull etagH) (headerOrNull lmH) json nowBg).timestamp = nowBg ∧
    (backgroundRefresh (recordJs e l t (.jobj fs))
        (.ok 200 (.parsed json) etagH lmH) nowBg).countP isUpdatedAct = 0 := by
  have htrace : backgroundRefresh (recordJs e l t (.jobj fs))
      (.ok 200 (.parsed json) etagH lmH) nowBg =
      [Act.fetchStart,
       Act.write (writeCache (headerOrNull etagH) (headerOrNull lmH) json nowBg)] := by
    unfold backgroundRefresh
    simp [recordJs, getProp, getPropFields, truthy, hsame]
  refine ⟨htrace, ?_, ?_, rfl, ?_⟩
  · exact writeCache_etag_of_validatorOk _ _ _ _ (validatorOk_headerOrNull etagH)
  · exact writeCache_lastModified_of_validatorOk _ _ _ _ (validatorOk_headerOrNull lmH)
  · rw [htrace]; simp [isUpdatedAct, List.countP_cons]

/-- C7: with no networked transport (`file://` context) the run serves
the record's payload when a record exists and the empty mapping
otherwise, initiates no fetch, and emits "catalog ready". -/
theorem offline_serves_cache_or_empty (env : Env) (hfile : env.fileProto = true) :
    (loadOffers env).countP isFetchStartAct = 0 ∧
    (loadOffers env).countP isLoadedAct = 1 ∧
    (∀ e l t fs, readCache env.store = recordJs e l t (.jobj fs) →
      offersAfter env.initOffers (loadOffers env) = some (.jobj fs)) ∧
    (readCache env.store = .jnull →
      offersAfter env.initOffers (loadOffers env) = some emptyObj) := by
  have htrace : loadOffers env =
      [Act.setOffers (initOffersValue env.initOffers),
       Act.setOffers (if truthy (readCache env.store) &&
            truthy (getProp (readCache env.store) "data") then
          getProp (readCache env.store) "data" else emptyObj),
       Act.loaded] := by
    unfold loadOffers
    simp [hfile]
  refine ⟨?_, ?_, ?_, ?_⟩
  · rw [htrace]; simp [isFetchStartAct, List.countP_cons]
  · rw [htrace]; simp [isLoadedAct, List.countP_cons]
  · intro e l t fs hs
    rw [htrace, hs]
    simp [offersAfter, recordJs, getProp, getPropFields, truthy]
  · intro hs
    rw [htrace, hs]
    simp [offersAfter, truthy]

/-- C8: every `Failed` outcome (network error, timeout, status other
than 200/304, or a parse error on a 200 body) leaves the cache without
any write, leaves the served value at the cached payload (or the empty
mapping when no record existed), and "catalog ready" still fires
exactly once — on the fresh-cache/background path and the blocking path
alike. -/
theorem failed_outcome_fallback (env : Env)
    (hfile : env.fileProto = false) (hfail : failedOutcome env.fetchRes = true) :
    (loadOffers env).countP isWriteAct = 0 ∧
    (loadOffers env).countP isLoadedAct = 1 ∧
    (∀ e l t fs, readCache env.store = recordJs e l t (.jobj fs) →
      offersAfter env.initOffers (loadOffers env) = some (.jobj fs)) ∧
    (readCache env.store = .jnull →
      offersAfter env.initOffers (loadOffers env) = some emptyObj) := by
  by_cases hfc : freshCheck (readCache env.store) env.now = true
  · have htrace : loadOffers env =
        [Act.setOffers (initOffersValue env.initOffers),
         Act.setOffers (if truthy (getProp (readCache env.store) "data") then
            getProp (readCache env.store) "data" else emptyObj),
         Act.loaded, Act.fetchStart] := by
      unfold loadOffers
      simp [hfile, hfc, backgroundRefresh_failed _ _ _ hfail]
    refine ⟨?_, ?_, ?_, ?_⟩
    · rw [htrace]; simp [isWriteAct, List.countP_cons]
    · rw [htrace]; simp [isLoadedAct, List.countP_cons]
    · intro e l t fs hs
      rw [htrace, hs]
      simp [offersAfter, getProp_recordJs_data, truthy]
    · intro hs
      rw [hs] at hfc
      simp [freshCheck_jnull] at hfc
  · have htrace : loadOffers env =
        [Act.setOffers (initOffersValue env.initOffers), Act.fetchStart,
         Act.setOffers (if truthy (readCache env.store) &&
              truthy (getProp (readCache env.store) "data") then
            getProp (readCache env.store) "data" else emptyObj),
         Act.loaded] := by
      unfold loadOffers
      simp [hfile, hfc, blockingActs_failed _ _ _ hfail]
    refine ⟨?_, ?_, ?_, ?_⟩
    · rw [htrace]; simp [isWriteAct, List.countP_cons]
    · rw [htrace]; simp [isLoadedAct, List.countP_cons]
    · intro e l t fs hs
      rw [htrace, hs]
      simp [offersAfter, recordJs, getProp, getPropFields, truthy]
    · intro hs
      rw [htrace, hs]
      simp [offersAfter, truthy]

theorem offersAfter_cons_setOffers (i : Option JsValue) (w : JsValue) (l : List Act) :
    offersAfter i (Act.setOffers w :: l) = offersAfter (some w) l := rfl

theorem backgroundRefresh_setOffers (c : JsValue) (fr : FetchResult) (n : Int) (v : JsValue)
    (h : Act.setOffers v ∈ backgroundRefresh c fr n) : bodyOf fr = some v := by
  unfold backgroundRefresh at h
  cases fr with
  | err m => simp at h
  | ok status body etagH lmH =>
    dsimp only at h
    rw [List.mem_cons] at h
    rcases h with h | h
    · exact absurd h (by simp)
    · split at h
      · split at h
        · simp at h
        · split at h <;> (try split at h) <;> simp at h <;> (rw [h]; rfl)
      · split at h
        · split at h <;> simp at h
        · simp at h

theorem blockingActs_setOffers (c : JsValue) (fr : FetchResult) (n : Int) (v : JsValue)
    (h : Act.setOffers v ∈ blockingActs c fr n) :
    v = emptyObj ∨ v = getProp c "data" ∨ bodyOf fr = some v := by
  unfold blockingActs at h
  cases fr with
  | err m =>
    simp only [List.mem_cons, List.not_mem_nil, or_false, Act.setOffers.injEq] at h
    split at h
    · exact Or.inr (Or.inl h)
    · exact Or.inl h
  | ok status body etagH lmH =>
    dsimp only at h
    split at h
    · split at h
      · simp only [List.mem_cons, List.not_mem_nil, or_false, Act.setOffers.injEq] at h
        split at h
        · exact Or.inr (Or.inl h)
        · exact Or.inl h
      · next json =>
        simp only [List.mem_cons, List.not_mem_nil, or_false] at h
        rcases h with h | h
        · exact absurd h (by simp)
        · rw [show v = json from by simpa using h]
          exact Or.inr (Or.inr rfl)
    · split at h
      · split at h
        · simp only [List.mem_cons, List.not_mem_nil, or_false] at h
          rcases h with h | h
          · exact Or.inr (Or.inl (by simpa using h))
          · exact absurd h (by simp)
        · simp only [List.mem_cons, List.not_mem_nil, or_false, Act.setOffers.injEq] at h
          exact Or.inl h
      · simp only [List.mem_cons, List.not_mem_nil, or_false, Act.setOffers.injEq] at h
        split at h
        · exact Or.inr (Or.inl h)
        · exact Or.inl h

/-- C1 counterexample: a run on the blocking-fetch path (stale record)
whose fetch yields a Fresh outcome with a payload that differs by
canonical serialization both from the cached payload and from the
currently served value — yet the run emits no "catalog changed": the
blocking path persists the record and updates the served value without
the `offers:updated` dispatch. -/
theorem blocking_fresh_emits_no_changed :
    stringify (JsValue.jobj [("A", .jnum 1)]) ≠ stringify (.jobj [("A", .jstr "x")]) ∧
    stringify (JsValue.jobj [("A", .jnum 1)]) ≠ stringify emptyObj ∧
    loadOffers c1EnvX =
      [Act.setOffers emptyObj, Act.fetchStart,
       Act.write ⟨.jstr "v1", .jnull, 100000000, .jobj [("A", .jnum 1)]⟩,
       Act.setOffers (.jobj [("A", .jnum 1)]), Act.loaded] ∧
    (loadOffers c1EnvX).countP isUpdatedAct = 0 :=
  ⟨by decide, by decide, rfl, rfl⟩

/-- C1 (amended): a Fresh outcome whose payload differs by canonical
serialization from the previously served payload causes — on the
BackgroundRevalidate path — a write of the new record (new validators,
`fetchedAt` = now, new payload), an update of the served value, and the
"catalog changed" emission; on the BlockingFetch path the same record is
written and the served value updated, but no "catalog changed" is
emitted there. -/
theorem fresh_outcome_per_path (env : Env) (e l : JsValue) (t : Int)
    (fs : List (String × JsValue)) (json : JsValue) (etagH lmH : Option String)
    (hjson : truthy json = true)
    (hdiff : stringify (JsValue.jobj fs) ≠ stringify json)
    (hfile : env.fileProto = false)
    (hstore : readCache env.store = recordJs e l t (.jobj fs))
    (hstale : freshCheck (recordJs e l t (.jobj fs)) env.now = false)
    (hfr : env.fetchRes = .ok 200 (.parsed json) etagH lmH) :
    backgroundRefresh (recordJs e l t (.jobj fs)) (.ok 200 (.parsed json) etagH lmH) env.nowBg =
      [Act.fetchStart,
       Act.write ⟨headerOrNull etagH, headerOrNull lmH, env.nowBg, json⟩,
       Act.setOffers json,
       Act.updated "fetched" (headerOrNull etagH) (headerOrNull lmH) env.nowBg] ∧
    loadOffers env =
      [Act.setOffers (initOffersValue env.initOffers), Act.fetchStart,
       Act.write ⟨headerOrNull etagH, headerOrNull lmH, env.now, json⟩,
       Act.setOffers json, Act.loaded] ∧
    (loadOffers env).countP isUpdatedAct = 0 := by
  have hbg : backgroundRefresh (recordJs e l t (.jobj fs))
      (.ok 200 (.parsed json) etagH lmH) env.nowBg =
      [Act.fetchStart,
       Act.write ⟨headerOrNull etagH, headerOrNull lmH, env.nowBg, json⟩,
       Act.setOffers json,
       Act.updated "fetched" (headerOrNull etagH) (headerOrNull lmH) env.nowBg] := by
    unfold backgroundRefresh
    simp [recordJs, getProp, getPropFields, truthy, hdiff,
      writeCache_headers etagH lmH json env.nowBg hjson]
  have hbl : loadOffers env =
      [Act.setOffers (initOffersValue env.initOffers), Act.fetchStart,
       Act.write ⟨headerOrNull etagH, headerOrNull lmH, env.now, json⟩,
       Act.setOffers json, Act.loaded] := by
    unfold loadOffers blockingActs
    simp [hstore, hfile, hstale, hfr, writeCache_headers etagH lmH json env.now hjson]
  exact ⟨hbg, hbl, by rw [hbl]; simp [isUpdatedAct, List.countP_cons]⟩

/-- C9 counterexample: stored text that parses to a JSON value that is
not a CacheRecord (here the number 5) is returned as-is by `readCache`,
not as the absent result (`null`). -/
theorem readCache_returns_nonrecord :
    readCache (some (.wellFormed (.jnum 5))) = JsValue.jnum 5 ∧
    JsValue.jnum 5 ≠ JsValue.jnull ∧
    ∀ e l t d, JsValue.jnum 5 ≠ recordJs e l t d := by
  refine ⟨rfl, fun h => JsValue.noConfusion h, fun e l t d h => ?_⟩
  simp [recordJs] at h

/-- C9 (amended): `readCache` never throws outward (the embedding is a
total function, matching the source's catch-all): an absent key or
unparseable stored text yields the absent result (`null`), while stored
text that parses is returned as-is, without any validation that it
forms a CacheRecord. -/
theorem readCache_total_behavior (s : Option StoredCell) :
    (s = none → readCache s = .jnull) ∧
    (s = some .malformed → readCache s = .jnull) ∧
    (∀ v, s = some (.wellFormed v) → readCache s = v) := by
  refine ⟨fun h => ?_, fun h => ?_, fun v h => ?_⟩ <;> rw [h] <;> rfl

/-- C10: `window.CoolVoceOffers` is a defined value from the first
action of every run: the entry assignment keeps a truthy prior value
and otherwise installs the empty mapping (in particular, it installs
the empty mapping when the value was undefined); at every point from
which "catalog ready" has been emitted the value is defined; and every
assignment of the run installs the entry value, the empty mapping, the
cached record's payload, or the freshly parsed body. -/
theorem served_value_always_defined (env : Env) :
    (loadOffers env).head? = some (Act.setOffers (initOffersValue env.initOffers)) ∧
    (env.initOffers = none → (loadOffers env).head? = some (Act.setOffers emptyObj)) ∧
    (∀ n, Act.loaded ∈ (loadOffers env).take n →
      (offersAfter env.initOffers ((loadOffers env).take n)).isSome = true) ∧
    (∀ v, Act.setOffers v ∈ loadOffers env →
      v = initOffersValue env.initOffers ∨ v = emptyObj ∨
      v = getProp (readCache env.store) "data" ∨ bodyOf env.fetchRes = some v) := by
  have hhead : (loadOffers env).head? = some (Act.setOffers (initOffersValue env.initOffers)) :=
    rfl
  refine ⟨hhead, fun h => by rw [hhead, h]; rfl, ?_, ?_⟩
  · intro n hn
    match n with
    | 0 => simp at hn
    | Nat.succ m =>
      have hr : loadOffers env =
          Act.setOffers (initOffersValue env.initOffers) ::
            (loadOffers env).tail := by
        cases hl : loadOffers env with
        | nil => rw [hl] at hhead; simp at hhead
        | cons a rest =>
          rw [hl] at hhead
          simp only [List.head?_cons, Option.some.injEq] at hhead
          rw [hhead]
          rfl
      rw [hr, List.take_succ_cons, offersAfter_cons_setOffers]
      exact offersAfter_isSome _ _ rfl
  · intro v hv
    unfold loadOffers at hv
    by_cases hf : env.fileProto
    · simp only [hf, if_true, List.mem_cons, List.not_mem_nil, or_false] at hv
      rcases hv with hv | hv | hv
      · exact Or.inl (by simpa using hv)
      · have hv' := (Act.setOffers.injEq _ _).mp hv
        split at hv'
        · exact Or.inr (Or.inr (Or.inl hv'))
        · exact Or.inr (Or.inl hv')
      · exact absurd hv (by simp)
    · by_cases hfc : freshCheck (readCache env.store) env.now = true
      · simp only [hf, if_false, hfc, if_true, Bool.false_eq_true, List.mem_cons] at hv
        rcases hv with hv | hv | hv | hv
        · exact Or.inl (by simpa using hv)
        · have hv' := (Act.setOffers.injEq _ _).mp hv
          split at hv'
          · exact Or.inr (Or.inr (Or.inl hv'))
          · exact Or.inr (Or.inl hv')
        · exact absurd hv (by simp)
        · exact Or.inr (Or.inr (Or.inr (backgroundRefresh_setOffers _ _ _ _ hv)))
      · simp only [hf, hfc, if_false, Bool.false_eq_true, List.mem_cons, List.mem_append,
          List.not_mem_nil, or_false] at hv
        rcases hv with hv | hv | hv | hv
        · exact Or.inl (by simpa using hv)
        · exact absurd hv (by simp)
        · rcases blockingActs_setOffers _ _ _ _ hv with h | h | h
          · exact Or.inr (Or.inl h)
          · exact Or.inr (Or.inr (Or.inl h))
          · exact Or.inr (Or.inr (Or.inr h))
        · exact absurd hv (by simp)

/-- C1 witness: the amended per-path outcome handling at a concrete
stale record and a concrete 200 response. -/
theorem fresh_outcome_per_path_witness :
    backgroundRefresh (recordJs (.jstr "v0") .jnull 3 (.jobj [("A", .jstr "x")]))
        (.ok 200 (.parsed (.jobj [("B", .jnum 2)])) (some "v1") (some "Mon")) c1EnvW.nowBg =
      [Act.fetchStart,
       Act.write ⟨headerOrNull (some "v1"), headerOrNull (some "Mon"), c1EnvW.nowBg,
         .jobj [("B", .jnum 2)]⟩,
       Act.setOffers (.jobj [("B", .jnum 2)]),
       Act.updated "fetched" (headerOrNull (some "v1")) (headerOrNull (some "Mon"))
         c1EnvW.nowBg] ∧
    loadOffers c1EnvW =
      [Act.setOffers (initOffersValue c1EnvW.initOffers), Act.fetchStart,
       Act.write ⟨headerOrNull (some "v1"), headerOrNull (some "Mon"), c1EnvW.now,
         .jobj [("B", .jnum 2)]⟩,
       Act.setOffers (.jobj [("B", .jnum 2)]), Act.loaded] ∧
    (loadOffers c1EnvW).countP isUpdatedAct = 0 :=
  fresh_outcome_per_path c1EnvW (.jstr "v0") .jnull 3 [("A", .jstr "x")]
    (.jobj [("B", .jnum 2)]) (some "v1") (some "Mon") rfl (by decide) rfl rfl (by decide) rfl

/-- C2 witness: the fresh-cache behavior at a concrete record of age
50 ms. -/
theorem fresh_cache_witness :
    loadOffers c2EnvW =
      Act.setOffers (initOffersValue c2EnvW.initOffers) ::
        Act.setOffers (.jobj [("A", .jstr "x")]) :: Act.loaded ::
          backgroundRefresh (recordJs (.jstr "v1") .jnull 50 (.jobj [("A", .jstr "x")]))
            c2EnvW.fetchRes c2EnvW.nowBg ∧
    ((loadOffers c2EnvW).take 3).countP isFetchStartAct = 0 ∧
    offersAfter c2EnvW.initOffers ((loadOffers c2EnvW).take 3) =
      some (.jobj [("A", .jstr "x")]) :=
  fresh_cache_serves_then_revalidates c2EnvW (.jstr "v1") .jnull 50 [("A", .jstr "x")]
    rfl rfl (by decide) (by decide)

/-- C5 witness: the NotModified rewrite at a concrete stale record. -/
theorem notModified_witness :
    writesOf (loadOffers c5EnvW) =
      [⟨.jstr "w1", .jnull,
        if freshCheck (recordJs (.jstr "w1") .jnull 1 (.jobj [("K", .jnum 7)])) c5EnvW.now
        then c5EnvW.nowBg else c5EnvW.now, .jobj [("K", .jnum 7)]⟩] ∧
    (loadOffers c5EnvW).countP isUpdatedAct = 0 :=
  notModified_rewrites_freshness_only c5EnvW (.jstr "w1") .jnull 1 [("K", .jnum 7)]
    (.parseError "no body") (some "w1") none rfl rfl (by decide) (by decide) rfl

/-- C6 witness: identical payload under a new tag at concrete values. -/
theorem fresh_identical_witness :
    backgroundRefresh (recordJs (.jstr "v1") .jnull 50 (.jobj [("A", .jstr "x")]))
        (.ok 200 (.parsed (.jobj [("A", .jstr "x")])) (some "v9") none) 200 =
      [Act.fetchStart,
       Act.write (writeCache (headerOrNull (some "v9")) (headerOrNull none)
          (.jobj [("A", .jstr "x")]) 200)] ∧
    (writeCache (headerOrNull (some "v9")) (headerOrNull none)
        (.jobj [("A", .jstr "x")]) 200).etag = headerOrNull (some "v9") ∧
    (writeCache (headerOrNull (some "v9")) (headerOrNull none)
        (.jobj [("A", .jstr "x")]) 200).lastModified = headerOrNull none ∧
    (writeCache (headerOrNull (some "v9")) (headerOrNull none)
        (.jobj [("A", .jstr "x")]) 200).timestamp = 200 ∧
    (backgroundRefresh (recordJs (.jstr "v1") .jnull 50 (.jobj [("A", .jstr "x")]))
        (.ok 200 (.parsed (.jobj [("A", .jstr "x")])) (some "v9") none) 200).countP
      isUpdatedAct = 0 :=
  fresh_identical_content_no_changed (.jstr "v1") .jnull 50 [("A", .jstr "x")]
    (.jobj [("A", .jstr "x")]) (some "v9") none 200 rfl

/-- C7 witness: the offline path at a concrete cached record. -/
theorem offline_witness :
    (loadOffers c7EnvW).countP isFetchStartAct = 0 ∧
    (loadOffers c7EnvW).countP isLoadedAct = 1 ∧
    offersAfter c7EnvW.initOffers (loadOffers c7EnvW) = some (.jobj [("B", .jstr "y")]) :=
  ⟨(offline_serves_cache_or_empty c7EnvW rfl).1,
   (offline_serves_cache_or_empty c7EnvW rfl).2.1,
   (offline_serves_cache_or_empty c7EnvW rfl).2.2.1 .jnull .jnull 5 [("B", .jstr "y")] rfl⟩

/-- C8 witness: a timed-out fetch with an empty store. -/
theorem failed_outcome_witness :
    (loadOffers c8EnvW).countP isWriteAct = 0 ∧
    (loadOffers c8EnvW).countP isLoadedAct = 1 ∧
    offersAfter c8EnvW.initOffers (loadOffers c8EnvW) = some emptyObj :=
  ⟨(failed_outcome_fallback c8EnvW rfl rfl).1,
   (failed_outcome_fallback c8EnvW rfl rfl).2.1,
   (failed_outcome_fallback c8EnvW rfl rfl).2.2.2 rfl⟩

/-- C9 witness: unparseable stored text yields the absent result. -/
theorem readCache_witness : readCache (some .malformed) = JsValue.jnull :=
  (readCache_total_behavior (some .malformed)).2.1 rfl

/-- C10 witness: at a concrete run with an undefined prior value, the
served value is defined once "catalog ready" has fired, and the entry
assignment installed the empty mapping. -/
theorem served_value_witness :
    (offersAfter c10EnvW.initOffers ((loadOffers c10EnvW).take 3)).isSome = true ∧
    (loadOffers c10EnvW).head? = some (Act.setOffers emptyObj) :=
  ⟨(served_value_always_defined c10EnvW).2.2.1 3 (by
      have h : (loadOffers c10EnvW).take 3 =
          [Act.setOffers emptyObj, Act.setOffers emptyObj, Act.loaded] := rfl
      rw [h]; simp),
   (served_value_always_defined c10EnvW).2.1 rfl⟩

end CoolVoce
